import Mathlib

/-!
Verification of the Raspberry_NFC_Player repository against its
natural-language specification.

The Python sources are shallowly embedded as pure Lean functions over
explicit state records.  Hardware interactions (GPIO reads, the MFRC-522
reader, the GStreamer pipeline, the filesystem) are modelled as explicit
inputs to each operation: a hardware read that may fail is an `Option`
argument, an operation that may raise is embedded as `Except`.
Wall-clock timestamps and media positions are rationals (`ℚ`), matching
Python's real-valued `time.time()` arithmetic exactly on the comparisons
the code performs.
-/

/-! ## RFID reader (`src/rfid_reader.py`) -/

/-- Outcome of one hardware poll `self.reader.read_no_block()` inside
`RFIDReader.read_tag`: a tag id was decoded, no tag was present
(`id is None`), or the call raised.  On an exception the source calls
`initialize_reader` again; `reinitOk` is whether that re-setup succeeds
(it sets `is_connected`). -/
inductive HwRead where
  | tag (id : String)
  | noTag
  | readError (reinitOk : Bool)
deriving DecidableEq, Repr

/-- Mutable state of `RFIDReader` (fields set in `__init__`,
src/rfid_reader.py lines 27-32): `is_connected`, `last_read_time`
(initially `0`), `last_tag_id` (initially `None`). -/
structure RFIDState where
  is_connected : Bool
  last_read_time : ℚ
  last_tag_id : Option String
deriving DecidableEq, Repr

/-- Embedding of `RFIDReader.read_tag` (src/rfid_reader.py lines 45-79).
Returns the produced signal (`Some id` = "new tag", `None` otherwise)
and the successor state.  Mirrors the source exactly: the 1-second
debounce check runs before the hardware poll and short-circuits every
read inside the window; `last_read_time` is updated on every non-empty
read (line 64) while `last_tag_id` is updated only when a new signal is
produced (line 69); an exception path re-runs reader setup, which
touches only `is_connected`. -/
def read_tag (s : RFIDState) (current_time : ℚ) (hw : HwRead) :
    Option String × RFIDState :=
  if !s.is_connected then (none, s)
  else if current_time - s.last_read_time < 1 then (none, s)
  else
    match hw with
    | .readError ok => (none, { s with is_connected := ok })
    | .noTag => (none, s)
    | .tag id =>
        if some id ≠ s.last_tag_id then
          (some id, { s with last_read_time := current_time,
                             last_tag_id := some id })
        else
          (none, { s with last_read_time := current_time })

/-! ## Battery monitor (`src/battery_monitor.py`) -/

/-- Mutable state of `BatteryMonitor`: `battery_level`, initialised to
`100` in `__init__` (src/battery_monitor.py line 28). -/
structure BatteryState where
  battery_level : Int
deriving DecidableEq, Repr

/-- Embedding of `BatteryMonitor._convert_to_percentage`
(src/battery_monitor.py lines 89-106): `min_value = 0`,
`max_value = 1023`, `percentage = ((raw - min) / (max - min)) * 100`
computed over the reals and truncated toward zero by Python's `int()`
(which `Int.tdiv` reproduces for this exact rational), then clamped with
`max(0, min(100, ...))`. -/
def convert_to_percentage (raw_value : Int) : Int :=
  let min_value : Int := 0
  let max_value : Int := 1023
  let percentage := Int.tdiv ((raw_value - min_value) * 100) (max_value - min_value)
  max 0 (min 100 percentage)

/-- Embedding of `BatteryMonitor.get_level` (src/battery_monitor.py
lines 52-72).  The hardware read `GPIO.input(self.battery_pin)` is the
`Option Int` argument: `some raw` is a successful raw reading, `none`
is any exception (including the `battery_pin` attribute missing after a
failed monitor setup).  On success the converted value is stored and
returned; on failure the stored last-known value is returned and the
state is unchanged. -/
def get_level (s : BatteryState) (hw : Option Int) : Int × BatteryState :=
  match hw with
  | some raw =>
      let lvl := convert_to_percentage raw
      (lvl, { s with battery_level := lvl })
  | none => (s.battery_level, s)

/-- Initial `BatteryMonitor` state: the default level `100` set in
`__init__`. -/
def batteryInit : BatteryState := ⟨100⟩

/-- State of the battery monitor after a whole history of reads
(each `some raw` a successful hardware read, each `none` a failed one),
starting from the freshly constructed monitor. -/
def runReads (hist : List (Option Int)) : BatteryState :=
  hist.foldl (fun s hw => (get_level s hw).2) batteryInit

/-- Raw value of the most recent successful read in a history, if any. -/
def lastSuccess : List (Option Int) → Option Int
  | [] => none
  | hw :: rest =>
      match lastSuccess rest with
      | some v => some v
      | none => hw

lemma convert_to_percentage_nonneg (raw : Int) :
    0 ≤ convert_to_percentage raw :=
  le_max_left 0 _

lemma convert_to_percentage_le (raw : Int) :
    convert_to_percentage raw ≤ 100 :=
  max_le (by norm_num) (min_le_left _ _)

lemma runReads_level (hist : List (Option Int)) :
    (runReads hist).battery_level =
      match lastSuccess hist with
      | some raw => convert_to_percentage raw
      | none => 100 := by
  have general :
      ∀ (l : List (Option Int)) (s : BatteryState),
        (l.foldl (fun s hw => (get_level s hw).2) s).battery_level =
          match lastSuccess l with
          | some raw => convert_to_percentage raw
          | none => s.battery_level := by
    intro l
    induction l with
    | nil => intro s; rfl
    | cons hw rest ih =>
        intro s
        have step : (get_level s hw).2.battery_level =
            match hw with
            | some raw => convert_to_percentage raw
            | none => s.battery_level := by
          cases hw <;> rfl
        simp only [List.foldl_cons, ih, lastSuccess]
        cases hrest : lastSuccess rest with
        | some v => simp
        | none => simpa using step
  simpa using general hist batteryInit

lemma runReads_bounds (hist : List (Option Int)) :
    0 ≤ (runReads hist).battery_level ∧ (runReads hist).battery_level ≤ 100 := by
  rw [runReads_level]
  cases lastSuccess hist with
  | some raw =>
      exact ⟨convert_to_percentage_nonneg raw, convert_to_percentage_le raw⟩
  | none => norm_num

/-! ## Video player (`src/video_player.py`) -/

/-- Result of a GStreamer position/duration query inside
`VideoPlayer.get_position` / `get_duration`: the query succeeded with a
value in nanoseconds, the query returned an unsuccessful flag, or the
call raised. -/
inductive QueryResult where
  | ok (value : ℚ)
  | failed
  | exn
deriving DecidableEq, Repr

/-- Gst.SECOND, nanoseconds per second. -/
def gstSecond : ℚ := 1000000000

/-- Embedding of `VideoPlayer.get_position` (src/video_player.py lines
207-222).  `hasPipeline` is the truthiness of `self.pipeline`; `q` is
the outcome of `self.pipeline.query_position(Gst.Format.TIME)`.  The
function is total: every failure path returns `0` rather than
propagating an error. -/
def get_position (hasPipeline : Bool) (q : QueryResult) : ℚ :=
  if hasPipeline then
    match q with
    | .ok v => v / gstSecond
    | .failed => 0
    | .exn => 0
  else 0

/-- Embedding of `VideoPlayer.get_duration` (src/video_player.py lines
224-239): identical shape to `get_position` over
`self.pipeline.query_duration`. -/
def get_duration (hasPipeline : Bool) (q : QueryResult) : ℚ :=
  if hasPipeline then
    match q with
    | .ok v => v / gstSecond
    | .failed => 0
    | .exn => 0
  else 0

/-- The single persisted playback record written to
`playback_state.json` by `VideoPlayer.save_state`:
`{video_path, position, volume}`. -/
structure PlaybackRecord where
  video_path : String
  position : ℚ
  volume : Int
deriving DecidableEq, Repr

/-- State of a `VideoPlayer` instance together with the modelled
pipeline and state file.  `hasPipeline` is the truthiness of
`self.pipeline`; `position` is the pipeline's current playback
position (the value a successful `query_position` reports; it is
changed by `seek`); `duration` is the loaded medium's duration;
`stateFile` is the content of `playback_state.json` (`none` = absent). -/
structure VPState where
  hasPipeline : Bool
  current_video : Option String
  volume : Int
  is_playing : Bool
  position : ℚ
  duration : ℚ
  stateFile : Option PlaybackRecord
deriving DecidableEq, Repr

/-- Embedding of `VideoPlayer.seek` (src/video_player.py lines 169-187):
with a pipeline present, reposition playback; the source applies no
clamping. -/
def VPState.seek (s : VPState) (pos : ℚ) : VPState :=
  if s.hasPipeline then { s with position := pos } else s

/-- Embedding of `VideoPlayer.set_volume` (src/video_player.py lines
189-205): with a pipeline present, store `max(0, min(100, volume))`. -/
def VPState.set_volume (s : VPState) (v : Int) : VPState :=
  if s.hasPipeline then { s with volume := max 0 (min 100 v) } else s

/-- Embedding of `VideoPlayer.play` (src/video_player.py lines 139-147). -/
def VPState.play (s : VPState) : VPState :=
  if s.hasPipeline then { s with is_playing := true } else s

/-- Embedding of `VideoPlayer.pause` (src/video_player.py lines 149-157). -/
def VPState.pause (s : VPState) : VPState :=
  if s.hasPipeline then { s with is_playing := false } else s

/-- Value `self.get_position()` returns in a state where the pipeline
query succeeds and reports the current playback position (the
instantiation of `get_position` used by `save_state`). -/
def VPState.get_position_m (s : VPState) : ℚ :=
  if s.hasPipeline then s.position else 0

/-- Value `self.get_duration()` returns in a state where the pipeline
query succeeds and reports the loaded medium's duration. -/
def VPState.get_duration_m (s : VPState) : ℚ :=
  if s.hasPipeline then s.duration else 0

/-- Embedding of `VideoPlayer.save_state` (src/video_player.py lines
241-259): only when a video is loaded, overwrite the state file with
`{video_path: current_video, position: get_position(), volume}`. -/
def VPState.save_state (s : VPState) : VPState :=
  match s.current_video with
  | some p => { s with stateFile := some ⟨p, s.get_position_m, s.volume⟩ }
  | none => s

/-- Embedding of `VideoPlayer.load_saved_position` (src/video_player.py
lines 261-275): if the state file exists and its `video_path` equals
`current_video`, seek to the stored position and apply the stored
volume; otherwise do nothing. -/
def VPState.load_saved_position (s : VPState) : VPState :=
  match s.stateFile with
  | some st =>
      if s.current_video = some st.video_path then
        (s.seek st.position).set_volume st.volume
      else s
  | none => s

/-- Embedding of `VideoPlayer.load` (src/video_player.py lines 103-137).
`pathExists` is `os.path.exists(video_path)`; a missing file raises
`FileNotFoundError` before any state is touched (`Except.error`).
Otherwise: the running pipeline is set to NULL and refitted with the
new source (which touches none of the modelled fields), `current_video`
is set, the saved record is applied via `load_saved_position`, and the
pipeline is started then paused to materialise the first frame. -/
def VPState.load (s : VPState) (path : String) (pathExists : Bool) :
    Except Unit VPState :=
  if !pathExists then .error ()
  else
    let s₁ := { s with current_video := some path }
    let s₂ := s₁.load_saved_position
    .ok s₂.play.pause

/-! ## Button controller (`src/button_controller.py`) -/

/-- Embedding of the per-button state table built by
`ButtonController.initialize_buttons` (src/button_controller.py lines
35-62): for every `(button_name, pin)` entry of `config['gpio_pins']`
an entry `button_states[button_name] = True` is created
(`True` = not pressed, pull-up). -/
def setup_buttons (gpio_pins : List (String × Nat)) : List (String × Bool) :=
  gpio_pins.map (fun p => (p.1, true))

/-- Embedding of `ButtonController.get_button_state`
(src/button_controller.py lines 105-119):
`self.button_states.get(button_name, True)` — an association-list
lookup that falls back to `True` when the name has no entry.  The
function is total (the source's `dict.get` never raises, and the
enclosing `try` would swallow an exception into the same default). -/
def get_button_state (button_states : List (String × Bool)) (name : String) :
    Bool :=
  match button_states.find? (fun p => p.1 == name) with
  | some p => p.2
  | none => true

/-! ## Orchestrator (`src/media_player.py`) -/

/-- One entry of the `config['rfid_tags']` list: `{tag_id, video_path}`. -/
structure TagBinding where
  tag_id : String
  video_path : String
deriving DecidableEq, Repr

/-- Session state of `MediaPlayerApp` (fields set in `__init__`,
src/media_player.py lines 51-62) together with the owned `VideoPlayer`.
`status_label` is the text of the status label (the single
"show message" sink); `progress_value` is the progress bar's value.
The constant `controls_timeout = 3.0` is `controlsTimeout` below. -/
structure AppState where
  current_video : Option String
  is_test_mode : Bool
  controls_visible : Bool
  last_touch_time : ℚ
  status_label : String
  progress_value : ℚ
  player : VPState
deriving DecidableEq, Repr

/-- The fixed `self.controls_timeout = 3.0` (src/media_player.py line 62). -/
def controlsTimeout : ℚ := 3

/-- Embedding of `MediaPlayerApp.show_controls` (src/media_player.py
lines 276-280): make the overlay visible and stamp the touch time. -/
def AppState.show_controls (s : AppState) (now : ℚ) : AppState :=
  { s with controls_visible := true, last_touch_time := now }

/-- Embedding of `MediaPlayerApp.show_message` (src/media_player.py
lines 301-304): set the status label text, then `show_controls`. -/
def AppState.show_message (s : AppState) (now : ℚ) (msg : String) : AppState :=
  AppState.show_controls { s with status_label := msg } now

/-- Embedding of `MediaPlayerApp.load_video` (src/media_player.py lines
185-200).  `pathExists` is `os.path.exists(video_path)`.  On an
existing path the player's `load` runs (it rechecks the same
filesystem, hence receives the same `pathExists`), `current_video` is
set and a "Video Loaded" message is shown (the `Clock` re-scheduling of
progress updates is not part of the modelled state); a raising `load`
is caught and reported.  On a missing path only the
"File not found" message is shown. -/
def AppState.load_video (s : AppState) (now : ℚ) (path : String)
    (pathExists : Bool) : AppState :=
  if pathExists then
    match s.player.load path pathExists with
    | .ok p' =>
        AppState.show_message
          { s with player := p', current_video := some path }
          now "Video Loaded - Press Play"
    | .error _ => AppState.show_message s now "Error loading video"
  else
    AppState.show_message s now ("File not found: " ++ path)

/-- First configuration entry whose `tag_id` equals the scanned id —
the linear scan of `MediaPlayerApp.handle_tag_detection`
(src/media_player.py lines 172-176). -/
def find_tag (cfg : List TagBinding) (tag_id : String) : Option TagBinding :=
  cfg.find? (fun t => t.tag_id == tag_id)

/-- Embedding of `MediaPlayerApp.handle_tag_detection`
(src/media_player.py lines 169-183): on the first matching binding,
`load_video` its path; with no match and no current video, show
"Unidentified Tag Detected"; with no match while a video is loaded, do
nothing.  `fs` tells which paths exist on disk. -/
def AppState.handle_tag_detection (s : AppState) (now : ℚ)
    (cfg : List TagBinding) (tag_id : String) (fs : String → Bool) : AppState :=
  match find_tag cfg tag_id with
  | some t => s.load_video now t.video_path (fs t.video_path)
  | none =>
      if s.current_video = none then
        s.show_message now "Unidentified Tag Detected"
      else s

/-- Attribute lookup `self.video_player.player.is_playing()` performed
by `MediaPlayerApp.hide_controls` (src/media_player.py line 284) and
`on_touch_down` (line 249).  `VideoPlayer` defines no attribute
`player` (its flag is `self.video_player.is_playing`), so evaluating
this expression raises `AttributeError` on every call — modelled as
`Except.error`. -/
def videoPlayer_player_is_playing (_ : VPState) : Except Unit Bool :=
  Except.error ()

/-- Embedding of `MediaPlayerApp.hide_controls` (src/media_player.py
lines 282-286), faithful to the source: the guard is
`self.controls_visible and not self.video_player.player.is_playing()`.
Python's `and` short-circuits, so with the overlay hidden the broken
attribute chain is never evaluated and the call returns normally; with
the overlay visible the lookup raises. -/
def AppState.hide_controls (s : AppState) : Except Unit AppState :=
  if s.controls_visible then
    match videoPlayer_player_is_playing s.player with
    | .error e => .error e
    | .ok playing =>
        if !playing then .ok { s with controls_visible := false } else .ok s
  else .ok s

/-- Variant of `hide_controls` with the attribute slip repaired: the
guard reads the flag the source evidently meant,
`self.video_player.is_playing`.  Kept alongside the faithful embedding
to show that even then the condition is inverted with respect to the
specification: it hides exactly while NOT playing. -/
def AppState.hide_controls_flag (s : AppState) : AppState :=
  if s.controls_visible && !s.player.is_playing then
    { s with controls_visible := false }
  else s

/-- Embedding of `MediaPlayerApp.update_progress` (src/media_player.py
lines 288-299), faithful to the source: with a video loaded, update the
progress bar from position/duration (pipeline queries succeeding, as
`get_position_m`/`get_duration_m`), then, when the overlay is visible
and more than `controls_timeout` seconds passed since the last touch,
call `hide_controls` — whose broken attribute lookup raises. -/
def AppState.update_progress (s : AppState) (now : ℚ) :
    Except Unit AppState :=
  match s.current_video with
  | some _ =>
      let dur := s.player.get_duration_m
      let s₁ :=
        if 0 < dur then
          { s with progress_value := s.player.get_position_m / dur * 100 }
        else s
      if s₁.controls_visible && controlsTimeout < now - s₁.last_touch_time then
        s₁.hide_controls
      else .ok s₁
  | none => .ok s

/-- Variant of `update_progress` built on `hide_controls_flag` (the
attribute slip repaired), used to exhibit the inverted visibility
condition. -/
def AppState.update_progress_flag (s : AppState) (now : ℚ) : AppState :=
  match s.current_video with
  | some _ =>
      let dur := s.player.get_duration_m
      let s₁ :=
        if 0 < dur then
          { s with progress_value := s.player.get_position_m / dur * 100 }
        else s
      if s₁.controls_visible && controlsTimeout < now - s₁.last_touch_time then
        s₁.hide_controls_flag
      else s₁
  | none => s

/-! ## Claim C1 -/

/-- C1, counterexample.  After tag "A" is accepted at time 10, a read at
time 10.5 — inside the 1-second debounce window — with a DIFFERENT tag
"B" presented returns `none`: the claim's requirement that a different
tag id signal "even when the second read occurs within the debounce
window" fails, because the window check in `read_tag` short-circuits
before the hardware poll. -/
theorem c1_counterexample :
    (read_tag ⟨true, 0, none⟩ 10 (HwRead.tag "A")).1 = some "A" ∧
    (read_tag (read_tag ⟨true, 0, none⟩ 10 (HwRead.tag "A")).2 (21/2)
        (HwRead.tag "B")).1 = none ∧
    (21 : ℚ)/2 - 10 < 1 := by
  have h1 : read_tag ⟨true, 0, none⟩ 10 (HwRead.tag "A") =
      (some "A", ⟨true, 10, some "A"⟩) := by
    simp [read_tag]
  refine ⟨by rw [h1], ?_, by norm_num⟩
  rw [h1]
  norm_num [read_tag]

/-- C1, amended: given a read that accepts tag `A` at time `t₁`, a
second read of the SAME tag returns `none` (only the first signals —
in fact unconditionally, window or not); a second read of a DIFFERENT
tag `B` returns `none` while inside the debounce window, and signals
`B` only once the window has elapsed. -/
theorem c1_debounce (s : RFIDState) (t₁ t₂ : ℚ) (A B : String)
    (h₁ : (read_tag s t₁ (HwRead.tag A)).1 = some A) :
    (read_tag (read_tag s t₁ (HwRead.tag A)).2 t₂ (HwRead.tag A)).1 = none ∧
    (t₂ - t₁ < 1 →
      (read_tag (read_tag s t₁ (HwRead.tag A)).2 t₂ (HwRead.tag B)).1 = none) ∧
    (B ≠ A → ¬(t₂ - t₁ < 1) →
      (read_tag (read_tag s t₁ (HwRead.tag A)).2 t₂ (HwRead.tag B)).1 = some B) := by
  by_cases hconn : s.is_connected = true
  · by_cases hwin : t₁ - s.last_read_time < 1
    · simp [read_tag, hconn, hwin] at h₁
    · by_cases hnew : some A ≠ s.last_tag_id
      · have hs₁ : (read_tag s t₁ (HwRead.tag A)).2 =
            { s with last_read_time := t₁, last_tag_id := some A } := by
          simp [read_tag, hconn, hwin, hnew]
        rw [hs₁]
        refine ⟨?_, fun hlt => ?_, fun hBA hge => ?_⟩
        · rcases lt_or_le (t₂ - t₁) 1 with h | h
          · simp [read_tag, hconn, h]
          · simp [read_tag, hconn, not_lt.mpr h]
        · simp [read_tag, hconn, hlt]
        · simp [read_tag, hconn, hge, hBA]
      · simp [read_tag, hconn, hwin, hnew] at h₁
  · rw [Bool.not_eq_true] at hconn
    simp [read_tag, hconn] at h₁

/-- C1, witness: the amended theorem applied at the concrete run of the
counterexample — tag "A" accepted at time 10 (state ⟨connected, 0,
no last tag⟩), re-presented at time 12. -/
theorem c1_debounce_witness :
    (read_tag (read_tag ⟨true, 0, none⟩ 10 (HwRead.tag "A")).2 12
        (HwRead.tag "A")).1 = none :=
  (c1_debounce ⟨true, 0, none⟩ 10 12 "A" "B" (by simp [read_tag])).1

/-! ## Claim C2 -/

/-- C2, counterexample.  Tag "T" was last accepted at time 10
(state ⟨connected, 10, last tag "T"⟩).  The tag is removed (a `noTag`
read at time 12 leaves the state unchanged — in particular
`last_tag_id` is not cleared) and "T" is re-presented at time 14, with
the 1-second window long elapsed; the claim requires `read_tag` to
return "T" again, but the code returns `none`. -/
theorem c2_counterexample :
    read_tag ⟨true, 10, some "T"⟩ 12 HwRead.noTag =
      (none, ⟨true, 10, some "T"⟩) ∧
    (read_tag ⟨true, 10, some "T"⟩ 14 (HwRead.tag "T")).1 = none ∧
    (1 : ℚ) ≤ 14 - 10 := by
  refine ⟨by norm_num [read_tag], by norm_num [read_tag], by norm_num⟩

/-- C2, amended: a tag id `T` equal to `last_tag_id` (the last accepted
read) NEVER retriggers — neither removal and re-presentation nor elapse
of the debounce window enables it, since a tag-absent read leaves the
state unchanged and a same-id read is suppressed unconditionally.  A
new signal for a presented tag requires its id to differ from the last
accepted one (and the window to have elapsed). -/
theorem c2_same_tag (s : RFIDState) (t : ℚ) (T : String)
    (hc : s.is_connected = true) (hl : s.last_tag_id = some T) :
    (read_tag s t (HwRead.tag T)).1 = none ∧
    (read_tag s t HwRead.noTag).2 = s ∧
    (∀ B, B ≠ T → ¬(t - s.last_read_time < 1) →
      (read_tag s t (HwRead.tag B)).1 = some B) := by
  refine ⟨?_, ?_, fun B hB hge => ?_⟩
  · rcases lt_or_le (t - s.last_read_time) 1 with h | h
    · simp [read_tag, hc, h]
    · simp [read_tag, hc, not_lt.mpr h, hl]
  · rcases lt_or_le (t - s.last_read_time) 1 with h | h
    · simp [read_tag, hc, h]
    · simp [read_tag, hc, not_lt.mpr h]
  · simp [read_tag, hc, hge, hl, hB]

/-- C2, witness: the amended theorem applied at the concrete state
⟨connected, last read at 0, last tag "T"⟩ polled at time 5 — the same
tag is suppressed although the window elapsed, while the fresh tag "B"
signals. -/
theorem c2_same_tag_witness :
    (read_tag ⟨true, 0, some "T"⟩ 5 (HwRead.tag "T")).1 = none ∧
    (read_tag ⟨true, 0, some "T"⟩ 5 (HwRead.tag "B")).1 = some "B" :=
  ⟨(c2_same_tag ⟨true, 0, some "T"⟩ 5 "T" rfl rfl).1,
   (c2_same_tag ⟨true, 0, some "T"⟩ 5 "T" rfl rfl).2.2 "B"
     (by simp) (by norm_num)⟩

/-! ## Claim C3 -/

/-- C3, exhibiting the bug.  Failing state: a video is loaded, the
controls are visible, the last touch was at time 0, the check runs at
time 10 (the 3-second idle timeout has elapsed) and playback is PAUSED
(`is_playing = false`).  The claim (and the spec) say the step hides
the controls only while playback is active and never while paused.  The
code does the opposite, twice over: (1) faithfully embedded, the guard
evaluates `self.video_player.player.is_playing()` — an attribute
`VideoPlayer` does not have — so the update step raises
`AttributeError` instead of ever hiding anything; (2) with the
attribute slip repaired to the flag the source evidently meant, the
guard is `not is_playing`, so the step hides the controls exactly while
paused. -/
theorem c3_hide_while_paused_bug :
    AppState.update_progress
        ⟨some "a.mp4", false, true, 0, "", 0,
         ⟨true, some "a.mp4", 50, false, 5, 60, none⟩⟩ 10 = Except.error () ∧
    (AppState.update_progress_flag
        ⟨some "a.mp4", false, true, 0, "", 0,
         ⟨true, some "a.mp4", 50, false, 5, 60, none⟩⟩ 10).controls_visible
      = false ∧
    (⟨some "a.mp4", false, true, 0, "", 0,
      ⟨true, some "a.mp4", 50, false, 5, 60, none⟩⟩ : AppState).player.is_playing
      = false := by
  refine ⟨?_, ?_, rfl⟩
  · norm_num [AppState.update_progress, AppState.hide_controls,
      videoPlayer_player_is_playing, VPState.get_duration_m,
      VPState.get_position_m, controlsTimeout]
  · norm_num [AppState.update_progress_flag, AppState.hide_controls_flag,
      VPState.get_duration_m, VPState.get_position_m, controlsTimeout]

/-! ## Claim C4 -/

/-- C4: the save/load round trip of the playback state.  `save_state`
with video `P` loaded records `{video_path := P, position, volume}`;
loading `P` in any state carrying that record (volume `v ∈ [0,100]`)
seeks to the recorded position and applies the recorded volume; loading
a different path `Q` leaves position and volume untouched (the record's
path fails the equality guard in `load_saved_position`). -/
theorem c4_roundtrip (s₀ s₂ : VPState) (P Q : String) (p : ℚ) (v : Int)
    (hp0 : s₀.hasPipeline = true) (hcv0 : s₀.current_video = some P)
    (hp2 : s₂.hasPipeline = true) (hsf : s₂.stateFile = some ⟨P, p, v⟩)
    (h0 : 0 ≤ v) (h1 : v ≤ 100) (hQ : Q ≠ P) :
    s₀.save_state.stateFile = some ⟨P, s₀.position, s₀.volume⟩ ∧
    (∃ s', s₂.load P true = Except.ok s' ∧ s'.position = p ∧ s'.volume = v) ∧
    (∃ s'', s₂.load Q true = Except.ok s'' ∧ s''.position = s₂.position ∧
      s''.volume = s₂.volume) := by
  have hclamp : max 0 (min 100 v) = v := by
    rw [min_eq_right h1, max_eq_right h0]
  refine ⟨?_, ?_, ?_⟩
  · simp [VPState.save_state, hcv0, VPState.get_position_m, hp0]
  · have h2 : s₂.load P true = Except.ok
        { s₂ with current_video := some P, position := p,
                  volume := max 0 (min 100 v), is_playing := false } := by
      simp [VPState.load, VPState.load_saved_position, VPState.seek,
        VPState.set_volume, VPState.play, VPState.pause, hsf, hp2]
    exact ⟨_, h2, by simp, by simp [hclamp]⟩
  · have h3 : s₂.load Q true = Except.ok
        { s₂ with current_video := some Q, is_playing := false } := by
      simp [VPState.load, VPState.load_saved_position, VPState.play,
        VPState.pause, hsf, hp2, hQ]
    exact ⟨_, h3, by simp, by simp⟩

/-- C4, witness: the round trip at the concrete instance of the spec —
path "P" saved at position 42.0, volume 60, then loaded again; and
path "Q" loaded against the same record. -/
theorem c4_roundtrip_witness :
    (⟨true, some "P", 60, false, 42, 90, none⟩ : VPState).save_state.stateFile
      = some ⟨"P", 42, 60⟩ ∧
    (∃ s', (⟨true, some "P", 30, false, 7, 90, some ⟨"P", 42, 60⟩⟩ :
        VPState).load "P" true = Except.ok s' ∧
      s'.position = 42 ∧ s'.volume = 60) ∧
    (∃ s'', (⟨true, some "P", 30, false, 7, 90, some ⟨"P", 42, 60⟩⟩ :
        VPState).load "Q" true = Except.ok s'' ∧
      s''.position = (⟨true, some "P", 30, false, 7, 90,
        some ⟨"P", 42, 60⟩⟩ : VPState).position ∧
      s''.volume = (⟨true, some "P", 30, false, 7, 90,
        some ⟨"P", 42, 60⟩⟩ : VPState).volume) :=
  c4_roundtrip ⟨true, some "P", 60, false, 42, 90, none⟩
    ⟨true, some "P", 30, false, 7, 90, some ⟨"P", 42, 60⟩⟩
    "P" "Q" 42 60 rfl rfl rfl rfl (by norm_num) (by norm_num) (by simp)

/-! ## Claim C5 -/

/-- C5: a battery read whose hardware access fails returns the value of
the most recent successful read, and the default `100` exactly when no
read has ever succeeded since construction.  `hist` is the full history
of reads since `__init__` (`some raw` successful, `none` failed); the
final read fails. -/
theorem c5_fail_last_known (hist : List (Option Int)) :
    (get_level (runReads hist) none).1 =
      match lastSuccess hist with
      | some raw => convert_to_percentage raw
      | none => 100 :=
  runReads_level hist

/-! ## Claim C6 -/

/-- C6: after any history of reads, the battery level returned by
`get_level` — for a successful read of ANY raw value (arbitrarily out
of the calibrated 0–1023 range, negative included) as well as for a
failed read — lies in [0, 100]. -/
theorem c6_clamped (hist : List (Option Int)) (hw : Option Int) :
    0 ≤ (get_level (runReads hist) hw).1 ∧
      (get_level (runReads hist) hw).1 ≤ 100 := by
  cases hw with
  | some raw =>
      exact ⟨convert_to_percentage_nonneg raw, convert_to_percentage_le raw⟩
  | none => simpa using runReads_bounds hist

/-! ## Claim C7 -/

/-- C7: tag-to-video resolution.  (1) When the linear scan finds a first
matching binding `t` and `t.video_path` exists on disk, the video at
`t.video_path` is loaded (`current_video` becomes it and the "Video
Loaded" message is shown) — `find_tag` is `List.find?`, so with
duplicate ids the first entry is authoritative.  (2) With no matching
binding and no video loaded, the "Unidentified Tag Detected" message is
shown and `current_video` stays unset.  (3) With no matching binding
while a video is loaded, the whole session state is unchanged. -/
theorem c7_tag_resolution (s : AppState) (now : ℚ) (cfg : List TagBinding)
    (tid : String) (fs : String → Bool) :
    (∀ t, find_tag cfg tid = some t → fs t.video_path = true →
      (s.handle_tag_detection now cfg tid fs).current_video = some t.video_path ∧
      (s.handle_tag_detection now cfg tid fs).status_label =
        "Video Loaded - Press Play") ∧
    (find_tag cfg tid = none → s.current_video = none →
      (s.handle_tag_detection now cfg tid fs).status_label =
        "Unidentified Tag Detected" ∧
      (s.handle_tag_detection now cfg tid fs).current_video = none) ∧
    (find_tag cfg tid = none → ∀ v, s.current_video = some v →
      s.handle_tag_detection now cfg tid fs = s) := by
  refine ⟨fun t ht hfs => ?_, fun hn hv => ?_, fun hn v hv => ?_⟩
  · constructor <;>
      simp [AppState.handle_tag_detection, ht, AppState.load_video, hfs,
        VPState.load, AppState.show_message, AppState.show_controls]
  · constructor <;>
      simp [AppState.handle_tag_detection, hn, hv, AppState.show_message,
        AppState.show_controls]
  · simp [AppState.handle_tag_detection, hn, hv]

/-- C7, witness: the spec's concrete instance.  Configuration
`[{A, a.mp4}, {B, b.mp4}]`, scanned id `B`, every path existing, from
the fresh session: `b.mp4` is loaded; and against the same
configuration, an unmatched id `X` from the fresh session leaves
`current_video` unset and shows the unidentified-tag message. -/
theorem c7_tag_resolution_witness :
    ((⟨none, false, false, 0, "Insert Plate", 0,
        ⟨true, none, 50, false, 0, 0, none⟩⟩ : AppState).handle_tag_detection 5
      [⟨"A", "a.mp4"⟩, ⟨"B", "b.mp4"⟩] "B" (fun _ => true)).current_video
        = some "b.mp4" ∧
    ((⟨none, false, false, 0, "Insert Plate", 0,
        ⟨true, none, 50, false, 0, 0, none⟩⟩ : AppState).handle_tag_detection 5
      [⟨"A", "a.mp4"⟩, ⟨"B", "b.mp4"⟩] "X" (fun _ => true)).current_video
        = none :=
  ⟨((c7_tag_resolution ⟨none, false, false, 0, "Insert Plate", 0,
      ⟨true, none, 50, false, 0, 0, none⟩⟩ 5
      [⟨"A", "a.mp4"⟩, ⟨"B", "b.mp4"⟩] "B" (fun _ => true)).1
      ⟨"B", "b.mp4"⟩ (by simp [find_tag]) rfl).1,
   ((c7_tag_resolution ⟨none, false, false, 0, "Insert Plate", 0,
      ⟨true, none, 50, false, 0, 0, none⟩⟩ 5
      [⟨"A", "a.mp4"⟩, ⟨"B", "b.mp4"⟩] "X" (fun _ => true)).2.1
      (by simp [find_tag]) rfl).2⟩

/-! ## Claim C8 -/

/-- C8, counterexample.  Prior state: video "old.mp4" loaded, controls
HIDDEN.  `load_video` on the nonexistent "missing.mp4" does leave
`current_video` unchanged and does emit the "File not found" message —
but it does NOT leave the rest of the session state alone:
`show_message` calls `show_controls`, so `controls_visible` flips from
`false` to `true` (and `last_touch_time` is refreshed), refuting
"mutates no other session state". -/
theorem c8_counterexample :
    ((⟨some "old.mp4", false, false, 0, "x", 0,
        ⟨true, some "old.mp4", 50, false, 0, 0, none⟩⟩ : AppState).load_video 5
      "missing.mp4" false).current_video = some "old.mp4" ∧
    ((⟨some "old.mp4", false, false, 0, "x", 0,
        ⟨true, some "old.mp4", 50, false, 0, 0, none⟩⟩ : AppState).load_video 5
      "missing.mp4" false).status_label = "File not found: missing.mp4" ∧
    (⟨some "old.mp4", false, false, 0, "x", 0,
      ⟨true, some "old.mp4", 50, false, 0, 0, none⟩⟩ : AppState).controls_visible
      = false ∧
    ((⟨some "old.mp4", false, false, 0, "x", 0,
        ⟨true, some "old.mp4", 50, false, 0, 0, none⟩⟩ : AppState).load_video 5
      "missing.mp4" false).controls_visible = true :=
  ⟨rfl, rfl, rfl, rfl⟩

/-- C8, amended: `load_video` on a nonexistent path leaves
`current_video` at its prior value, leaves the video player state, the
test-mode flag and the progress value untouched, and emits the
"File not found" message; the only further session-state effects are
those of displaying that message — the controls overlay becomes visible
and the last-touch time is refreshed. -/
theorem c8_missing_file (s : AppState) (now : ℚ) (path : String) :
    (s.load_video now path false).current_video = s.current_video ∧
    (s.load_video now path false).player = s.player ∧
    (s.load_video now path false).is_test_mode = s.is_test_mode ∧
    (s.load_video now path false).progress_value = s.progress_value ∧
    (s.load_video now path false).status_label = "File not found: " ++ path ∧
    (s.load_video now path false).controls_visible = true ∧
    (s.load_video now path false).last_touch_time = now := by
  refine ⟨?_, ?_, ?_, ?_, ?_, ?_, ?_⟩ <;>
    simp [AppState.load_video, AppState.show_message, AppState.show_controls]

/-! ## Claim C9 -/

/-- C9: `get_button_state` on a button name that got no entry at
controller setup returns `True` (the pull-up "not pressed" default);
the embedding is a total function, matching the source's `dict.get`
with default, which raises for no input name. -/
theorem c9_default_state (pins : List (String × Nat)) (name : String)
    (h : ∀ p ∈ pins, p.1 ≠ name) :
    get_button_state (setup_buttons pins) name = true := by
  have hfind : (setup_buttons pins).find? (fun p => p.1 == name) = none := by
    rw [List.find?_eq_none]
    intro x hx
    rcases List.mem_map.mp hx with ⟨q, hq, rfl⟩
    simp [h q hq]
  simp [get_button_state, hfind]

/-- C9, witness: a controller configured with two buttons, queried for a
third name. -/
theorem c9_default_state_witness :
    get_button_state (setup_buttons [("play_pause", 17), ("volume_up", 22)])
      "power" = true :=
  c9_default_state [("play_pause", 17), ("volume_up", 22)] "power" (by simp)

/-! ## Claim C10 -/

/-- C10: `get_position` and `get_duration` are total — their embeddings
return a plain value, never an `Except` — and return `0` whenever there
is no pipeline, the pipeline query is unsuccessful, or the query
raises. -/
theorem c10_total_queries (q : QueryResult) :
    get_position false q = 0 ∧ get_duration false q = 0 ∧
    get_position true QueryResult.failed = 0 ∧
    get_position true QueryResult.exn = 0 ∧
    get_duration true QueryResult.failed = 0 ∧
    get_duration true QueryResult.exn = 0 := by
  cases q <;> simp [get_position, get_duration]
